import Mathlib

/-!
Shallow embedding of `src/pyautogui/_pyautogui_wayland.py`, the Wayland/libei
backend of PyAutoGUI.  The Python module is a straight-line adapter: each
backend operation issues a sequence of protocol calls (absolute motion, button,
scroll, keyboard-key, frame) against a libei pointer/keyboard device.  We model
a run of an operation as the sequence of protocol calls it makes, together with
the resulting connection/emulation state and an optional Python-level error
(an `assert` failure or an exception raised by a protocol call).
-/

namespace Wayland

/-- Value passed as the `button` argument of `_click` / `_mouseDown` /
`_mouseUp`: at the Python level it is either a string (such as `"left"`)
or an integer. -/
inductive PyBtn where
  | str (s : String)
  | int (n : Int)
deriving DecidableEq, Repr

/-- Value passed as the `key` argument of `_keyDown` / `_keyUp`: a string key
name or a raw integer keycode. -/
inductive PyKey where
  | str (s : String)
  | int (n : Int)
deriving DecidableEq, Repr

/-- One protocol call made against the libei device handles.  `button` carries
the raw Python value handed to `button_button` (the source passes the
argument through without translating it in `_mouseDown` / `_mouseUp`). -/
inductive Ev where
  | motionAbs (x y : Int)
  | button (b : PyBtn) (press : Bool)
  | scrollDelta (dx dy : Int)
  | scrollDiscrete (dx dy : Int)
  | scrollStop (horiz vert : Bool)
  | keyboardKey (code : Int) (press : Bool)
  | frame
deriving DecidableEq, Repr

/-- Python-level error escaping a backend operation: the `assert` in `_click`,
or an exception raised by an underlying protocol call (none of the emitter
functions in the source wraps its protocol calls in try/except). -/
inductive PyErr where
  | assertionError
  | transportError
deriving DecidableEq, Repr

/-- Module-level connection state: `_client`/`_pointer`/`_keyboard` being set
(collapsed to one `connected` flag, as the module treats them as one unit
created together by `_ensure_connected`) and the `_emulating` flag. -/
structure ConnState where
  connected : Bool
  emulating : Bool
deriving DecidableEq, Repr

/-- Initial module state: `_client is None`, `_emulating = False`. -/
def init : ConnState := ⟨false, false⟩

/-- Environment a run happens in: which protocol calls raise, and the pair
returned by `_position()` (the external `xdotool` query, `(0, 0)` on
failure -- either way some concrete pair). -/
structure Env where
  fail : Ev → Bool
  pos : Int × Int

/-- Environment in which no protocol call raises. -/
def noFailEnv : Env := ⟨fun _ => false, (0, 0)⟩

/-- Environment in which every protocol call raises. -/
def allFailEnv : Env := ⟨fun _ => true, (0, 0)⟩

/-- Result of running one backend operation: final module state, the protocol
calls that were actually made, and the error that escaped, if any. -/
structure RunResult where
  state : ConnState
  evs : List Ev
  err : Option PyErr
deriving DecidableEq, Repr

/-- `_ensure_connected()`: establishes `_client`/`_pointer`/`_keyboard` when
`_client is None`; observationally, afterwards the module is connected. -/
def ensureConnected (s : ConnState) : ConnState := { s with connected := true }

/-- `_start_emulating()`: afterwards `_emulating` is true. -/
def startEmulating (s : ConnState) : ConnState := { s with emulating := true }

/-- Issue a sequence of protocol calls in order, stopping at the first one the
environment makes raise (straight-line Python code stops at the first
exception; calls after it are not made). -/
def sendAll (env : Env) : List Ev → List Ev × Option PyErr
  | [] => ([], none)
  | e :: rest =>
    if env.fail e then ([], some PyErr.transportError)
    else
      let r := sendAll env rest
      (e :: r.1, r.2)

/-- Constant `LEFT` imported from pyautogui (its value is the string "left"). -/
def LEFT : String := "left"

/-- Constant `MIDDLE` imported from pyautogui. -/
def MIDDLE : String := "middle"

/-- Constant `RIGHT` imported from pyautogui. -/
def RIGHT : String := "right"

/-- Lookup in `BUTTON_NAME_MAPPING = {LEFT: 1, MIDDLE: 2, RIGHT: 3, 1: 1, 2: 2,
3: 3, 4: 4, 5: 5, 6: 6, 7: 7}` (source line 13); `none` means the key is
absent from the dict. -/
def BUTTON_NAME_MAPPING : PyBtn → Option Int
  | PyBtn.str s =>
    if s = LEFT then some 1
    else if s = MIDDLE then some 2
    else if s = RIGHT then some 3
    else none
  | PyBtn.int n => if 1 ≤ n ∧ n ≤ 7 then some n else none

/-- Fallback screen size returned by `_size()` when the `xrandr` query fails
(source line 111). -/
def defaultScreenSize : Int × Int := (1920, 1080)

/-- Coordinate resolution shared by `_vscroll` / `_hscroll`: `if x is None or
y is None: x, y = _position()` (both are replaced as soon as either is
missing). -/
def resolvePos (env : Env) : Option Int → Option Int → Int × Int
  | some a, some b => (a, b)
  | some _, none => env.pos
  | none, _ => env.pos

/-- `_moveTo(x, y)` (source lines 199-207): connect, start emulating, then
`pointer_motion_absolute(x, y)` followed by `frame()`.  There is no
clamping and no screen-size query in this function. -/
def moveTo (env : Env) (x y : Int) (s : ConnState) : RunResult :=
  let r := sendAll env [Ev.motionAbs x y, Ev.frame]
  ⟨startEmulating (ensureConnected s), r.1, r.2⟩

/-- `_mouseDown(x, y, button)` (source lines 209-218): connect, start
emulating, motion to (x, y), `button_button(button, True)` with the raw
`button` argument (no validation, no table lookup), `frame()`. -/
def mouseDown (env : Env) (x y : Int) (button : PyBtn) (s : ConnState) : RunResult :=
  let r := sendAll env [Ev.motionAbs x y, Ev.button button true, Ev.frame]
  ⟨startEmulating (ensureConnected s), r.1, r.2⟩

/-- `_mouseUp(x, y, button)` (source lines 220-228): like `_mouseDown` but with
`button_button(button, False)`, and it calls only `_ensure_connected()`
(no `_start_emulating()`). -/
def mouseUp (env : Env) (x y : Int) (button : PyBtn) (s : ConnState) : RunResult :=
  let r := sendAll env [Ev.motionAbs x y, Ev.button button false, Ev.frame]
  ⟨ensureConnected s, r.1, r.2⟩

/-- `_click(x, y, button)` (source lines 176-182): assert the button is a key
of `BUTTON_NAME_MAPPING` (raising `AssertionError` before any protocol
call otherwise), translate it, then `_mouseDown` followed by `_mouseUp`
with the translated integer code. -/
def click (env : Env) (x y : Int) (button : PyBtn) (s : ConnState) : RunResult :=
  match BUTTON_NAME_MAPPING button with
  | none => ⟨s, [], some PyErr.assertionError⟩
  | some b =>
    let r1 := mouseDown env x y (PyBtn.int b) s
    match r1.err with
    | some _ => r1
    | none =>
      let r2 := mouseUp env x y (PyBtn.int b) r1.state
      ⟨r2.state, r1.evs ++ r2.evs, r2.err⟩

/-- Scroll direction of `_vscroll` (source line 130): `-1 if clicks > 0 else 1`
(for the libei scroll axis, negative is up and positive is down). -/
def vdir (clicks : Int) : Int := if clicks > 0 then -1 else 1

/-- Scroll direction of `_hscroll` (source line 159): `1 if clicks > 0 else -1`. -/
def hdir (clicks : Int) : Int := if clicks > 0 then 1 else -1

/-- Body of the `for _ in range(abs(clicks))` loop of `_vscroll` (source lines
132-137), unrolled: each iteration issues `scroll_delta(0, direction)`,
`scroll_discrete(0, direction)`, `frame()`. -/
def scrollVLoop (d : Int) : Nat → List Ev
  | 0 => []
  | n + 1 => Ev.scrollDelta 0 d :: Ev.scrollDiscrete 0 d :: Ev.frame :: scrollVLoop d n

/-- Loop of `_hscroll` (source lines 161-166): `scroll_delta(direction, 0)`,
`scroll_discrete(direction, 0)`, `frame()` per iteration. -/
def scrollHLoop (d : Int) : Nat → List Ev
  | 0 => []
  | n + 1 => Ev.scrollDelta d 0 :: Ev.scrollDiscrete d 0 :: Ev.frame :: scrollHLoop d n

/-- Full protocol-call sequence of a nonzero `_vscroll`: motion to the resolved
position, the scroll loop, then `scroll_stop(False, True)` and `frame()`. -/
def vscrollCalls (clicks : Int) (x y : Int) : List Ev :=
  Ev.motionAbs x y ::
    (scrollVLoop (vdir clicks) clicks.natAbs ++ [Ev.scrollStop false true, Ev.frame])

/-- Full protocol-call sequence of a nonzero `_hscroll`, ending with
`scroll_stop(True, False)` and `frame()`. -/
def hscrollCalls (clicks : Int) (x y : Int) : List Ev :=
  Ev.motionAbs x y ::
    (scrollHLoop (hdir clicks) clicks.natAbs ++ [Ev.scrollStop true false, Ev.frame])

/-- `_vscroll(clicks, x=None, y=None)` (source lines 113-141): return
immediately when `clicks == 0` (before `_ensure_connected`), otherwise
connect, start emulating, resolve the position and issue `vscrollCalls`. -/
def vscroll (env : Env) (clicks : Int) (x y : Option Int) (s : ConnState) : RunResult :=
  if clicks = 0 then ⟨s, [], none⟩
  else
    let p := resolvePos env x y
    let r := sendAll env (vscrollCalls clicks p.1 p.2)
    ⟨startEmulating (ensureConnected s), r.1, r.2⟩

/-- `_hscroll(clicks, x=None, y=None)` (source lines 143-170). -/
def hscroll (env : Env) (clicks : Int) (x y : Option Int) (s : ConnState) : RunResult :=
  if clicks = 0 then ⟨s, [], none⟩
  else
    let p := resolvePos env x y
    let r := sendAll env (hscrollCalls clicks p.1 p.2)
    ⟨startEmulating (ensureConnected s), r.1, r.2⟩

/-- `_scroll(clicks, x=None, y=None)` (source lines 172-174): `return
_vscroll(clicks, x, y)`. -/
def scroll (env : Env) (clicks : Int) (x y : Option Int) (s : ConnState) : RunResult :=
  vscroll env clicks x y s

/-- The string iterated by `_build_keyboard_mapping` for alphabetic keys. -/
def alphabetChars : List Char := "abcdefghijklmnopqrstuvwxyz".toList

/-- `for i, c in enumerate("abcdefghijklmnopqrstuvwxyz"): mapping[c] = 30 + i;
mapping[c.upper()] = 30 + i` (source lines 237-239). -/
def alphaPairs : List (String × Int) :=
  alphabetChars.enum.flatMap (fun ic =>
    [(String.mk [ic.2], 30 + (ic.1 : Int)), (String.mk [ic.2.toUpper], 30 + (ic.1 : Int))])

/-- `for i, c in enumerate("1234567890"): mapping[c] = 2 + i` (source lines
242-243). -/
def digitPairs : List (String × Int) :=
  "1234567890".toList.enum.map (fun ic => (String.mk [ic.2], 2 + (ic.1 : Int)))

/-- The `special_keys` dict literal of `_build_keyboard_mapping` (source lines
246-290).  Python has no backslash-e escape, so the source's backslash-e
entry is the two-character string written below. -/
def specialKeyPairs : List (String × Int) :=
  [("backspace", 14), ("\x08", 14), ("tab", 15), ("\t", 15),
   ("enter", 28), ("return", 28), ("\n", 28), ("\r", 28),
   ("shift", 42), ("shiftleft", 42), ("shiftright", 54),
   ("ctrl", 29), ("ctrlleft", 29), ("ctrlright", 97),
   ("alt", 56), ("altleft", 56), ("altright", 100),
   ("pause", 119), ("capslock", 58),
   ("esc", 1), ("escape", 1), ("\\e", 1),
   ("space", 57), (" ", 57),
   ("pageup", 104), ("pgup", 104), ("pagedown", 109), ("pgdn", 109),
   ("end", 107), ("home", 102),
   ("left", 105), ("up", 103), ("right", 106), ("down", 108),
   ("insert", 110), ("delete", 111), ("del", 111),
   ("numlock", 69), ("scrolllock", 70),
   ("win", 125), ("winleft", 125), ("winright", 126), ("apps", 127)]

/-- `for i in range(1, 25): special_keys[f-string f{i}] = 58 + i` (source lines
293-294). -/
def fKeyPairs : List (String × Int) :=
  (List.range 24).map (fun j => ("f" ++ toString (j + 1), 58 + ((j : Int) + 1)))

/-- `for i in range(10): special_keys[f-string num{i}] = 96 + i if i > 0 else
82` (source lines 297-298). -/
def numpadPairs : List (String × Int) :=
  (List.range 10).map (fun i => ("num" ++ toString i, if i > 0 then 96 + (i : Int) else 82))

/-- The `special_keys.update({...})` block with the numpad operator keys
(source lines 300-307). -/
def numpadOpPairs : List (String × Int) :=
  [("multiply", 55), ("add", 78), ("separator", 83),
   ("subtract", 74), ("decimal", 83), ("divide", 98)]

/-- The `char_mapping` dict of shifted/unshifted punctuation (source lines
310-343). -/
def charMappingPairs : List (String × Int) :=
  [("!", 2), ("@", 3), ("#", 4), ("$", 5), ("%", 6), ("^", 7), ("&", 8), ("*", 9),
   ("(", 10), (")", 11), ("-", 12), ("_", 12), ("=", 13), ("+", 13),
   ("[", 26), ("\x7b", 26), ("]", 27), ("\x7d", 27),
   ("\\", 43), ("|", 43), (";", 39), (":", 39),
   ("\x27", 40), ("\x22", 40), ("\x60", 41), ("~", 41),
   (",", 51), ("<", 51), (".", 52), (">", 52), ("/", 53), ("?", 53)]

/-- All assignments performed by `_build_keyboard_mapping`, in program order:
letters and digits first, then `mapping.update(special_keys)` (dict literal,
f-keys, numpad keys, numpad operators), then `mapping.update(char_mapping)`.
A later assignment overrides an earlier one, as for a Python dict. -/
def keyboardPairs : List (String × Int) :=
  alphaPairs ++ digitPairs ++ specialKeyPairs ++ fKeyPairs ++ numpadPairs ++
    numpadOpPairs ++ charMappingPairs

/-- `keyboardMapping = _build_keyboard_mapping()` (source line 350), as a
lookup function.  The mapping is seeded with `None` for every name in
`pyautogui.KEY_NAMES` before the assignments above; a key that is absent or
still `None` behaves identically in `_keyDown` / `_keyUp` (immediate
return), so both are modelled as `none`.  The last assignment to a key wins,
hence the lookup scans the reversed assignment list. -/
def keyboardMapping (key : String) : Option Int :=
  (keyboardPairs.reverse.find? (fun p => p.1 == key)).map (fun p => p.2)

/-- Dict lookup `key in keyboardMapping and keyboardMapping[key] is not None`
for a Python-level key value.  Every key of the dict is a string, so an
integer key is never found. -/
def keyLookup : PyKey → Option Int
  | PyKey.str s => keyboardMapping s
  | PyKey.int _ => none

/-- Modelled from the spec: `pyautogui.isShiftCharacter` is defined in the
pyautogui package outside `src/`.  Per the spec, a key symbol requires the
shift modifier when it is an uppercase letter or shifted punctuation (the
characters marked `+ SHIFT` in the source's `char_mapping`). -/
def shiftChars : List Char := "~!@#$%^&*()_+\x7b\x7d|:\x22<>?".toList

/-- Modelled from the spec: whether `key` requires a shift modifier, i.e. it is
a single character that is an uppercase letter or shifted punctuation.
(No multi-character name in the keyboard mapping is uppercase or
punctuation, so the single-character reading is exhaustive for mapped
keys.) -/
def isShiftCharacter (key : String) : Bool :=
  match key.toList with
  | [c] => c.isUpper || shiftChars.contains c
  | _ => false

/-- The protocol calls of `_keyDown` for a mapped string key (source lines
366-373): a shift press and frame first when the symbol needs shift, then
the key press and a frame. -/
def keyDownCalls (ks : String) (code : Int) : List Ev :=
  (if isShiftCharacter ks then [Ev.keyboardKey 42 true, Ev.frame] else []) ++
    [Ev.keyboardKey code true, Ev.frame]

/-- The protocol calls of `_keyUp` for a mapped string key (source lines
388-395): the key release and frame first, then a shift release and frame
when the symbol needs shift (mirror of `keyDownCalls`). -/
def keyUpCalls (ks : String) (code : Int) : List Ev :=
  [Ev.keyboardKey code false, Ev.frame] ++
    (if isShiftCharacter ks then [Ev.keyboardKey 42 false, Ev.frame] else [])

/-- `_keyDown(key)` (source lines 352-373): silent return when the key is
absent from `keyboardMapping` or maps to `None`; otherwise connect, start
emulating, and emit.  The `isinstance(key, int)` branch sends the raw
integer keycode; it is unreachable because `keyLookup` never finds an
integer key, but it is kept for faithfulness. -/
def keyDown (env : Env) (key : PyKey) (s : ConnState) : RunResult :=
  match keyLookup key with
  | none => ⟨s, [], none⟩
  | some code =>
    match key with
    | PyKey.int n =>
      let r := sendAll env [Ev.keyboardKey n true, Ev.frame]
      ⟨startEmulating (ensureConnected s), r.1, r.2⟩
    | PyKey.str ks =>
      let r := sendAll env (keyDownCalls ks code)
      ⟨startEmulating (ensureConnected s), r.1, r.2⟩

/-- `_keyUp(key)` (source lines 375-395): silent return for unmapped keys;
otherwise it calls only `_ensure_connected()` (no `_start_emulating()`)
and emits the release sequence. -/
def keyUp (env : Env) (key : PyKey) (s : ConnState) : RunResult :=
  match keyLookup key with
  | none => ⟨s, [], none⟩
  | some code =>
    match key with
    | PyKey.int n =>
      let r := sendAll env [Ev.keyboardKey n false, Ev.frame]
      ⟨ensureConnected s, r.1, r.2⟩
    | PyKey.str ks =>
      let r := sendAll env (keyUpCalls ks code)
      ⟨ensureConnected s, r.1, r.2⟩

/-- Event classifier: discrete scroll-step calls. -/
def isDiscreteEv : Ev → Bool
  | Ev.scrollDiscrete _ _ => true
  | _ => false

/-- Event classifier: scroll-stop calls. -/
def isStopEv : Ev → Bool
  | Ev.scrollStop _ _ => true
  | _ => false

/-- Event classifier: button press/release calls. -/
def isButtonEv : Ev → Bool
  | Ev.button _ _ => true
  | _ => false

/-- In an environment where no protocol call raises, every call of a sequence
is made, in order, and no error escapes. -/
theorem sendAll_noFail (l : List Ev) : sendAll noFailEnv l = (l, none) := by
  induction l with
  | nil => rfl
  | cons e rest ih =>
    show ((e :: (sendAll noFailEnv rest).1, (sendAll noFailEnv rest).2) :
        List Ev × Option PyErr) = (e :: rest, none)
    rw [ih]

/-- Each iteration of the `_vscroll` loop contributes exactly one discrete
scroll call. -/
theorem scrollVLoop_countP_discrete (d : Int) :
    ∀ n, (scrollVLoop d n).countP isDiscreteEv = n := by
  intro n
  induction n with
  | zero => rfl
  | succ k ih => simp [scrollVLoop, List.countP_cons, isDiscreteEv, ih]

/-- The `_vscroll` loop issues no scroll-stop call. -/
theorem scrollVLoop_countP_stop (d : Int) :
    ∀ n, (scrollVLoop d n).countP isStopEv = 0 := by
  intro n
  induction n with
  | zero => rfl
  | succ k ih => simp [scrollVLoop, List.countP_cons, isStopEv, ih]

/-- Every discrete scroll call of the `_vscroll` loop carries direction
`(0, d)`. -/
theorem scrollVLoop_mem_discrete (d : Int) :
    ∀ n, ∀ e ∈ scrollVLoop d n, isDiscreteEv e = true → e = Ev.scrollDiscrete 0 d := by
  intro n
  induction n with
  | zero => intro e he; simp [scrollVLoop] at he
  | succ k ih =>
    intro e he hd
    simp only [scrollVLoop, List.mem_cons] at he
    rcases he with h1 | h1 | h1 | h1
    · subst h1; simp [isDiscreteEv] at hd
    · exact h1
    · subst h1; simp [isDiscreteEv] at hd
    · exact ih e h1 hd

/-- Run of a nonzero `_vscroll` when no protocol call raises: the module ends
connected and emulating, the calls are exactly `vscrollCalls` at the
resolved position, and no error escapes. -/
theorem vscroll_run_noFail (clicks : Int) (h : clicks ≠ 0) (x y : Option Int)
    (s : ConnState) :
    vscroll noFailEnv clicks x y s =
      ⟨⟨true, true⟩,
       vscrollCalls clicks (resolvePos noFailEnv x y).1 (resolvePos noFailEnv x y).2,
       none⟩ := by
  simp [vscroll, if_neg h, sendAll_noFail, ensureConnected, startEmulating]

/-- C1, counterexample: `_moveTo` does not clamp.  With the default screen size
`(1920, 1080)`, requesting the out-of-range point `(5000, 6000)` makes the
absolute-motion protocol call carry `(5000, 6000)` itself, which lies
outside `[0, width-1] x [0, height-1]`, contradicting the claim that the
coordinates passed to the call are clamped to that rectangle. -/
theorem C1_counterexample :
    (moveTo noFailEnv 5000 6000 init).evs = [Ev.motionAbs 5000 6000, Ev.frame] ∧
    ¬ ((5000 : Int) ≤ defaultScreenSize.1 - 1 ∧ (6000 : Int) ≤ defaultScreenSize.2 - 1) := by
  decide

/-- C1, amended: `_moveTo(x, y)` passes the requested coordinates through to
the absolute-motion protocol call unchanged — the function performs no
clamping and never consults the screen size — and afterwards the module is
connected and emulating. -/
theorem C1_moveTo_unclamped (x y : Int) (s : ConnState) :
    moveTo noFailEnv x y s = ⟨⟨true, true⟩, [Ev.motionAbs x y, Ev.frame], none⟩ := by
  simp [moveTo, sendAll, noFailEnv, ensureConnected, startEmulating]

/-- C2, counterexample: `_mouseDown` performs no button validation.  Called
with the invalid button value `"bogus"` (not a key of
`BUTTON_NAME_MAPPING`), it raises nothing and emits three protocol calls
(motion, button press with the raw value, frame), contradicting the claim
that mouse_down raises an invalid-argument failure and emits zero events. -/
theorem C2_counterexample :
    BUTTON_NAME_MAPPING (PyBtn.str "bogus") = none ∧
    (mouseDown noFailEnv 0 0 (PyBtn.str "bogus") init).err = none ∧
    (mouseDown noFailEnv 0 0 (PyBtn.str "bogus") init).evs =
      [Ev.motionAbs 0 0, Ev.button (PyBtn.str "bogus") true, Ev.frame] := by
  decide

/-- C2, amended: for a button value outside {left, middle, right, 1..7},
`_click` raises an `AssertionError` and emits zero protocol calls, but
`_mouseDown` and `_mouseUp` perform no validation: each raises nothing and
emits its usual motion/button/frame sequence carrying the raw button
value. -/
theorem C2_button_validation (button : PyBtn)
    (hb : BUTTON_NAME_MAPPING button = none) (x y : Int) (s : ConnState) :
    (click noFailEnv x y button s).err = some PyErr.assertionError ∧
    (click noFailEnv x y button s).evs = [] ∧
    (click noFailEnv x y button s).state = s ∧
    (mouseDown noFailEnv x y button s).err = none ∧
    (mouseDown noFailEnv x y button s).evs =
      [Ev.motionAbs x y, Ev.button button true, Ev.frame] ∧
    (mouseUp noFailEnv x y button s).err = none ∧
    (mouseUp noFailEnv x y button s).evs =
      [Ev.motionAbs x y, Ev.button button false, Ev.frame] := by
  simp [click, hb, mouseDown, mouseUp, sendAll, noFailEnv]

/-- C2, witness for the amended theorem at the concrete invalid button
`"bogus"`. -/
theorem C2_witness :
    BUTTON_NAME_MAPPING (PyBtn.str "bogus") = none ∧
    ((click noFailEnv 0 0 (PyBtn.str "bogus") init).err = some PyErr.assertionError ∧
     (click noFailEnv 0 0 (PyBtn.str "bogus") init).evs = [] ∧
     (click noFailEnv 0 0 (PyBtn.str "bogus") init).state = init ∧
     (mouseDown noFailEnv 0 0 (PyBtn.str "bogus") init).err = none ∧
     (mouseDown noFailEnv 0 0 (PyBtn.str "bogus") init).evs =
       [Ev.motionAbs 0 0, Ev.button (PyBtn.str "bogus") true, Ev.frame] ∧
     (mouseUp noFailEnv 0 0 (PyBtn.str "bogus") init).err = none ∧
     (mouseUp noFailEnv 0 0 (PyBtn.str "bogus") init).evs =
       [Ev.motionAbs 0 0, Ev.button (PyBtn.str "bogus") false, Ev.frame]) :=
  ⟨by decide, C2_button_validation (PyBtn.str "bogus") (by decide) 0 0 init⟩

/-- C5, counterexample: the emitter functions contain no try/except, so a
transport-level error raised by a protocol call escapes to the caller
instead of being caught and swallowed: in an environment where every
protocol call raises, `_moveTo` and `_click` both propagate the error. -/
theorem C5_counterexample :
    (moveTo allFailEnv 1 2 init).err = some PyErr.transportError ∧
    (click allFailEnv 1 2 (PyBtn.str "left") init).err = some PyErr.transportError := by
  decide

/-- C5, amended: a transport-level error raised by an underlying protocol call
during an emitter operation is not caught: it propagates to the caller, no
further protocol call of that operation is made, and (for a failure on the
first call) zero events are emitted.  This covers every emitter of the
module: `_moveTo`, `_mouseDown`, `_mouseUp`, `_click`, `_vscroll`,
`_hscroll`, and — for any mapped key — `_keyDown` and `_keyUp`, whose
first protocol call is a keyboard-key event. -/
theorem C5_transport_error_propagates (env : Env) (x y : Int) (s : ConnState)
    (ks : String) (c : Int) (hm : keyboardMapping ks = some c)
    (h : env.fail (Ev.motionAbs x y) = true)
    (hk : ∀ code press, env.fail (Ev.keyboardKey code press) = true) :
    ((moveTo env x y s).err = some PyErr.transportError ∧ (moveTo env x y s).evs = []) ∧
    (mouseDown env x y (PyBtn.int 1) s).err = some PyErr.transportError ∧
    (mouseUp env x y (PyBtn.int 1) s).err = some PyErr.transportError ∧
    (click env x y (PyBtn.str "left") s).err = some PyErr.transportError ∧
    (vscroll env 1 (some x) (some y) s).err = some PyErr.transportError ∧
    (hscroll env 1 (some x) (some y) s).err = some PyErr.transportError ∧
    ((keyDown env (PyKey.str ks) s).err = some PyErr.transportError ∧
     (keyDown env (PyKey.str ks) s).evs = []) ∧
    ((keyUp env (PyKey.str ks) s).err = some PyErr.transportError ∧
     (keyUp env (PyKey.str ks) s).evs = []) := by
  have hleft : BUTTON_NAME_MAPPING (PyBtn.str "left") = some 1 := by decide
  cases hsh : isShiftCharacter ks <;>
    simp [moveTo, mouseDown, mouseUp, click, vscroll, hscroll, keyDown, keyUp,
      keyLookup, hm, keyDownCalls, keyUpCalls, hsh, hleft, sendAll,
      vscrollCalls, hscrollCalls, resolvePos, h, hk]

/-- C5, witness for the amended theorem in the all-calls-fail environment, at
the mapped key `"a"`. -/
theorem C5_witness :
    keyboardMapping "a" = some 30 ∧
    allFailEnv.fail (Ev.motionAbs 1 2) = true ∧
    (∀ code press, allFailEnv.fail (Ev.keyboardKey code press) = true) ∧
    (((moveTo allFailEnv 1 2 init).err = some PyErr.transportError ∧
      (moveTo allFailEnv 1 2 init).evs = []) ∧
     (mouseDown allFailEnv 1 2 (PyBtn.int 1) init).err = some PyErr.transportError ∧
     (mouseUp allFailEnv 1 2 (PyBtn.int 1) init).err = some PyErr.transportError ∧
     (click allFailEnv 1 2 (PyBtn.str "left") init).err = some PyErr.transportError ∧
     (vscroll allFailEnv 1 (some 1) (some 2) init).err = some PyErr.transportError ∧
     (hscroll allFailEnv 1 (some 1) (some 2) init).err = some PyErr.transportError ∧
     ((keyDown allFailEnv (PyKey.str "a") init).err = some PyErr.transportError ∧
      (keyDown allFailEnv (PyKey.str "a") init).evs = []) ∧
     ((keyUp allFailEnv (PyKey.str "a") init).err = some PyErr.transportError ∧
      (keyUp allFailEnv (PyKey.str "a") init).evs = [])) :=
  ⟨by decide, rfl, fun _ _ => rfl,
   C5_transport_error_propagates allFailEnv 1 2 init "a" 30 (by decide) rfl
     (fun _ _ => rfl)⟩

/-- C6: for a valid button resolving to code `b`, `_click(x, y, button)` is
exactly `_mouseDown` immediately followed by `_mouseUp`, both with the
same resolved code `b`: the emitted calls are the concatenation of the two
sub-operations, the concrete sequence carries two button events (press
then release) with the same code, and no error is raised. -/
theorem C6_click_down_up (button : PyBtn) (b : Int)
    (hb : BUTTON_NAME_MAPPING button = some b) (x y : Int) (s : ConnState) :
    (click noFailEnv x y button s).err = none ∧
    (click noFailEnv x y button s).evs =
      (mouseDown noFailEnv x y (PyBtn.int b) s).evs ++
        (mouseUp noFailEnv x y (PyBtn.int b)
          (mouseDown noFailEnv x y (PyBtn.int b) s).state).evs ∧
    (click noFailEnv x y button s).evs =
      [Ev.motionAbs x y, Ev.button (PyBtn.int b) true, Ev.frame,
       Ev.motionAbs x y, Ev.button (PyBtn.int b) false, Ev.frame] ∧
    ((click noFailEnv x y button s).evs.countP isButtonEv) = 2 := by
  simp [click, hb, mouseDown, mouseUp, sendAll, noFailEnv, List.countP_cons, isButtonEv]

/-- C6, witness at the concrete button `"left"` (resolved code 1). -/
theorem C6_witness :
    BUTTON_NAME_MAPPING (PyBtn.str "left") = some 1 ∧
    ((click noFailEnv 4 5 (PyBtn.str "left") init).err = none ∧
     (click noFailEnv 4 5 (PyBtn.str "left") init).evs =
       (mouseDown noFailEnv 4 5 (PyBtn.int 1) init).evs ++
         (mouseUp noFailEnv 4 5 (PyBtn.int 1)
           (mouseDown noFailEnv 4 5 (PyBtn.int 1) init).state).evs ∧
     (click noFailEnv 4 5 (PyBtn.str "left") init).evs =
       [Ev.motionAbs 4 5, Ev.button (PyBtn.int 1) true, Ev.frame,
        Ev.motionAbs 4 5, Ev.button (PyBtn.int 1) false, Ev.frame] ∧
     ((click noFailEnv 4 5 (PyBtn.str "left") init).evs.countP isButtonEv) = 2) :=
  ⟨by decide, C6_click_down_up (PyBtn.str "left") 1 (by decide) 4 5 init⟩

/-- C7: `_vscroll(0, ...)` and `_hscroll(0, ...)` return before any protocol
interaction, in every environment and from every state: they emit zero
protocol calls, raise nothing, and leave the connection and emulation
state exactly as they found it. -/
theorem C7_zero_scroll_noop (env : Env) (x y : Option Int) (s : ConnState) :
    vscroll env 0 x y s = ⟨s, [], none⟩ ∧ hscroll env 0 x y s = ⟨s, [], none⟩ :=
  ⟨rfl, rfl⟩

/-- C9: `_scroll` is definitionally `_vscroll` — same arguments, same state
change, same emitted calls, same error, for every input. -/
theorem C9_scroll_eq_vscroll (env : Env) (clicks : Int) (x y : Option Int)
    (s : ConnState) :
    scroll env clicks x y s = vscroll env clicks x y s := rfl

/-- C3: for every nonzero `clicks`, `_vscroll` raises nothing and its emitted
calls contain exactly `abs(clicks)` discrete-scroll calls, every one of
them in direction `vdir clicks` on the vertical axis, and exactly one
scroll-stop call; the full trace is the motion, then the scroll loop, then
the stop and final frame — so the stop comes after every discrete call.
`vdir clicks` is `-1` (up, on the libei axis where negative is up) exactly
when `clicks` is positive, and `1` (down) when negative, matching the
claim's sign convention. -/
theorem C3_vscroll_events (clicks : Int) (h : clicks ≠ 0) (x y : Option Int)
    (s : ConnState) :
    (vscroll noFailEnv clicks x y s).err = none ∧
    ((vscroll noFailEnv clicks x y s).evs.countP isDiscreteEv) = clicks.natAbs ∧
    (∀ e ∈ (vscroll noFailEnv clicks x y s).evs,
      isDiscreteEv e = true → e = Ev.scrollDiscrete 0 (vdir clicks)) ∧
    ((vscroll noFailEnv clicks x y s).evs.countP isStopEv) = 1 ∧
    (vscroll noFailEnv clicks x y s).evs =
      Ev.motionAbs (resolvePos noFailEnv x y).1 (resolvePos noFailEnv x y).2 ::
        (scrollVLoop (vdir clicks) clicks.natAbs ++ [Ev.scrollStop false true, Ev.frame]) ∧
    (0 < clicks → vdir clicks = -1) ∧
    (clicks < 0 → vdir clicks = 1) := by
  rw [vscroll_run_noFail clicks h x y s]
  refine ⟨rfl, ?_, ?_, ?_, rfl, ?_, ?_⟩
  · simp [vscrollCalls, List.countP_cons, List.countP_append,
      scrollVLoop_countP_discrete, isDiscreteEv]
  · intro e he hd
    simp only [vscrollCalls, List.mem_cons, List.mem_append,
      List.mem_singleton, List.not_mem_nil, or_false] at he
    rcases he with h1 | h1 | h1 | h1
    · subst h1; simp [isDiscreteEv] at hd
    · exact scrollVLoop_mem_discrete _ _ e h1 hd
    · subst h1; simp [isDiscreteEv] at hd
    · subst h1; simp [isDiscreteEv] at hd
  · simp [vscrollCalls, List.countP_cons, List.countP_append,
      scrollVLoop_countP_stop, isStopEv]
  · intro hc; simp only [vdir]; rw [if_pos hc]
  · intro hc; simp only [vdir]; rw [if_neg (by omega)]

/-- C3, witness at `clicks = 3` from the initial state. -/
theorem C3_witness :
    (3 : Int) ≠ 0 ∧
    ((vscroll noFailEnv 3 (some 1) (some 2) init).err = none ∧
     ((vscroll noFailEnv 3 (some 1) (some 2) init).evs.countP isDiscreteEv) =
       (3 : Int).natAbs ∧
     (∀ e ∈ (vscroll noFailEnv 3 (some 1) (some 2) init).evs,
       isDiscreteEv e = true → e = Ev.scrollDiscrete 0 (vdir 3)) ∧
     ((vscroll noFailEnv 3 (some 1) (some 2) init).evs.countP isStopEv) = 1 ∧
     (vscroll noFailEnv 3 (some 1) (some 2) init).evs =
       Ev.motionAbs (resolvePos noFailEnv (some 1) (some 2)).1
           (resolvePos noFailEnv (some 1) (some 2)).2 ::
         (scrollVLoop (vdir 3) (3 : Int).natAbs ++ [Ev.scrollStop false true, Ev.frame]) ∧
     ((0 : Int) < 3 → vdir 3 = -1) ∧
     ((3 : Int) < 0 → vdir 3 = 1)) :=
  ⟨by decide, C3_vscroll_events 3 (by decide) (some 1) (some 2) init⟩

/-- C4: for every string key that requires the shift modifier and is mapped to
a native code, `_keyDown` emits the shift press (code 42) and its frame
strictly before the base key press, and `_keyUp` emits the base key
release strictly before the shift release — the mirrored order. -/
theorem C4_shift_ordering (ks : String) (code : Int)
    (hm : keyboardMapping ks = some code) (hs : isShiftCharacter ks = true)
    (s : ConnState) :
    (keyDown noFailEnv (PyKey.str ks) s).err = none ∧
    (keyDown noFailEnv (PyKey.str ks) s).evs =
      [Ev.keyboardKey 42 true, Ev.frame, Ev.keyboardKey code true, Ev.frame] ∧
    (keyUp noFailEnv (PyKey.str ks) s).err = none ∧
    (keyUp noFailEnv (PyKey.str ks) s).evs =
      [Ev.keyboardKey code false, Ev.frame, Ev.keyboardKey 42 false, Ev.frame] := by
  simp [keyDown, keyUp, keyLookup, hm, keyDownCalls, keyUpCalls, hs, sendAll_noFail]

/-- C4, witness at the concrete key `"A"` (mapped to code 30, shift
required). -/
theorem C4_witness :
    keyboardMapping "A" = some 30 ∧ isShiftCharacter "A" = true ∧
    ((keyDown noFailEnv (PyKey.str "A") init).err = none ∧
     (keyDown noFailEnv (PyKey.str "A") init).evs =
       [Ev.keyboardKey 42 true, Ev.frame, Ev.keyboardKey 30 true, Ev.frame] ∧
     (keyUp noFailEnv (PyKey.str "A") init).err = none ∧
     (keyUp noFailEnv (PyKey.str "A") init).evs =
       [Ev.keyboardKey 30 false, Ev.frame, Ev.keyboardKey 42 false, Ev.frame]) :=
  ⟨by decide, by decide, C4_shift_ordering "A" 30 (by decide) (by decide) init⟩

/-- C8: for every key argument that is absent from `keyboardMapping` or maps
to `None`, `_keyDown` and `_keyUp` return immediately: zero protocol
calls, no error, state untouched — in every environment. -/
theorem C8_unmapped_key_noop (key : PyKey) (hk : keyLookup key = none)
    (env : Env) (s : ConnState) :
    keyDown env key s = ⟨s, [], none⟩ ∧ keyUp env key s = ⟨s, [], none⟩ := by
  simp [keyDown, keyUp, hk]

/-- C8, witness at the concrete key `"volumeup"`, a `pyautogui.KEY_NAMES`
entry the mapping never assigns a code. -/
theorem C8_witness :
    keyLookup (PyKey.str "volumeup") = none ∧
    (keyDown noFailEnv (PyKey.str "volumeup") init = ⟨init, [], none⟩ ∧
     keyUp noFailEnv (PyKey.str "volumeup") init = ⟨init, [], none⟩) :=
  ⟨by decide, C8_unmapped_key_noop (PyKey.str "volumeup") (by decide) noFailEnv init⟩

/-- C10: for every index `i < 26`, the keyboard mapping assigns the `i`-th
lowercase letter the code `30 + i`, assigns its uppercase form the same
code, and hence the two lookups are equal. -/
theorem C10_upper_eq_lower (i : Nat) (h : i < 26) :
    keyboardMapping (String.mk [Char.ofNat (97 + i)]) = some (30 + (i : Int)) ∧
    keyboardMapping (String.mk [(Char.ofNat (97 + i)).toUpper]) = some (30 + (i : Int)) ∧
    keyboardMapping (String.mk [(Char.ofNat (97 + i)).toUpper]) =
      keyboardMapping (String.mk [Char.ofNat (97 + i)]) := by
  revert i
  decide

/-- C10, witness at `i = 0` (the letter a / A, code 30). -/
theorem C10_witness :
    0 < 26 ∧
    (keyboardMapping (String.mk [Char.ofNat (97 + 0)]) = some (30 + ((0 : Nat) : Int)) ∧
     keyboardMapping (String.mk [(Char.ofNat (97 + 0)).toUpper]) = some (30 + ((0 : Nat) : Int)) ∧
     keyboardMapping (String.mk [(Char.ofNat (97 + 0)).toUpper]) =
       keyboardMapping (String.mk [Char.ofNat (97 + 0)])) :=
  ⟨by decide, C10_upper_eq_lower 0 (by decide)⟩

end Wayland
